import Mathlib

/-
Shallow embedding of src/app.py (GHL Time Zone Updater).

Modelling conventions:
- JSON payload values are modelled as `String` (for JSON scalar values the
  Python code immediately applies `str(v)`, and every truthy JSON scalar has a
  non-empty string form, so Python truthiness of a present value coincides
  with the string being non-empty; `str` is the identity on this model).
- A Python dict is an association list `List (String × String)`; `dict.get`
  is association lookup. The nested `"contact"` value is modelled as
  `Option (List (String × String))`: `some` when present and a dict (the
  `isinstance(c, dict)` branch), `none` otherwise.
- Network traffic is an oracle passed in explicitly: each outbound request
  site receives the response the network would give. Responses are sums:
  transport/HTTP exceptions, 404s, and parsed bodies, mirroring exactly the
  distinctions the Python code makes.
- FastAPI's JSON responses are an inductive type: `accepted` stands for
  the dict with ok = true and queued = true, `rejected e` for the dict with
  ok = false and error = e.
-/

namespace GhlTz

/-- A webhook payload: top-level keys plus the optional nested contact dict. -/
structure Payload where
  top : List (String × String)
  contact : Option (List (String × String))
deriving Repr, DecidableEq

/-- Association-list lookup, modelling Python `dict.get(k)`. -/
def lookup : List (String × String) → String → Option String
  | [], _ => none
  | (k, v) :: rest, key => if k = key then some v else lookup rest key

/-- Python truthiness of a (string-modelled) JSON value: non-empty. -/
def truthy (s : String) : Bool := s ≠ ""

/-- The inner loop of `get_first` over one dict: return the first key of
`keys` whose value is present and truthy (app.py lines 64-66 and 70-72). -/
def getFirstIn (d : List (String × String)) : List String → Option String
  | [] => none
  | k :: ks =>
    match lookup d k with
    | some v => if truthy v then some v else getFirstIn d ks
    | none => getFirstIn d ks

/-- app.py `get_first` (lines 63-73): check all listed keys at top level,
then, if a nested contact dict is present, check the same keys inside it. -/
def get_first (p : Payload) (keys : List String) : Option String :=
  match getFirstIn p.top keys with
  | some v => some v
  | none =>
    match p.contact with
    | some c => getFirstIn c keys
    | none => none

/-- app.py `STATE_TZ` (lines 34-48): US state -> Olson fallback table. -/
def STATE_TZ : List (String × String) :=
  [("AL", "America/Chicago"), ("AK", "America/Anchorage"), ("AZ", "America/Phoenix"), ("AR", "America/Chicago"),
   ("CA", "America/Los_Angeles"), ("CO", "America/Denver"), ("CT", "America/New_York"), ("DE", "America/New_York"),
   ("DC", "America/New_York"), ("FL", "America/New_York"), ("GA", "America/New_York"), ("HI", "Pacific/Honolulu"),
   ("ID", "America/Boise"), ("IL", "America/Chicago"), ("IN", "America/Indiana/Indianapolis"), ("IA", "America/Chicago"),
   ("KS", "America/Chicago"), ("KY", "America/New_York"), ("LA", "America/Chicago"), ("ME", "America/New_York"),
   ("MD", "America/New_York"), ("MA", "America/New_York"), ("MI", "America/Detroit"), ("MN", "America/Chicago"),
   ("MS", "America/Chicago"), ("MO", "America/Chicago"), ("MT", "America/Denver"), ("NE", "America/Chicago"),
   ("NV", "America/Los_Angeles"), ("NH", "America/New_York"), ("NJ", "America/New_York"), ("NM", "America/Denver"),
   ("NY", "America/New_York"), ("NC", "America/New_York"), ("ND", "America/Chicago"), ("OH", "America/New_York"),
   ("OK", "America/Chicago"), ("OR", "America/Los_Angeles"), ("PA", "America/New_York"), ("RI", "America/New_York"),
   ("SC", "America/New_York"), ("SD", "America/Chicago"), ("TN", "America/Chicago"), ("TX", "America/Chicago"),
   ("UT", "America/Denver"), ("VT", "America/New_York"), ("VA", "America/New_York"), ("WA", "America/Los_Angeles"),
   ("WV", "America/New_York"), ("WI", "America/Chicago"), ("WY", "America/Denver")]

/-- Membership test `state in STATE_TZ` combined with `STATE_TZ[state]`. -/
def lookupStateTz (s : String) : Option String := lookup STATE_TZ s

/-- app.py lines 161-164: the four address-bearing fields extracted from the
payload (empty string stands for Python falsy / missing, via `or ""`). -/
structure Extracted where
  zipCode : String
  city : String
  state : String
  address : String
deriving Repr, DecidableEq

/-- Python `str.strip()`: drop leading and trailing whitespace, modelled over
the character list so that it evaluates by kernel reduction. -/
def pyStrip (s : String) : String :=
  ⟨((s.data.dropWhile Char.isWhitespace).reverse.dropWhile Char.isWhitespace).reverse⟩

/-- Python `str.upper()` (ASCII case mapping, which covers every value the
program compares), modelled over the character list. -/
def pyUpper (s : String) : String := ⟨s.data.map Char.toUpper⟩

/-- Python `str.lower()` (ASCII case mapping), modelled over the character
list. -/
def pyLower (s : String) : String := ⟨s.data.map Char.toLower⟩

/-- Field extraction for the webhook handler (app.py lines 161-164); the
state is stripped and upper-cased. -/
def extractFields (body : Payload) : Extracted where
  zipCode := (get_first body ["postal_code", "zip"]).getD ""
  city := (get_first body ["city"]).getD ""
  state := pyUpper (pyStrip ((get_first body ["state"]).getD ""))
  address := (get_first body ["address"]).getD ""

/-- app.py lines 167-171: build the candidate address strings, in order:
append the zip candidate, the city-state candidate and the state candidate
when their fields are truthy, then insert the fully-qualified address
candidate at the front when the address and one of city/state are truthy. -/
def buildCandidates (address city st zipCode : String) : List String :=
  let cs : List String := []
  let cs := if truthy zipCode then cs ++ [zipCode ++ ", USA"] else cs
  let cs := if truthy city && truthy st then cs ++ [city ++ ", " ++ st ++ ", USA"] else cs
  let cs := if truthy st then cs ++ [st ++ ", USA"] else cs
  if truthy address && (truthy city || truthy st) then
    (address ++ ", " ++ city ++ ", " ++ st ++ ", USA") :: cs
  else cs

/-- Configuration drawn from the environment at process start (app.py lines
16-18): the target field label (default given at line 16), the optional
fixed custom field id, and the optional display-name field id. -/
structure Config where
  tzFieldLabel : String := "Time Zone"
  tzFieldIdEnv : Option String := none
  tzNameFieldId : Option String := none
deriving Repr, DecidableEq

/-- One custom field record as parsed out of a listing response: the optional
label, the optional name, and the id (app.py lines 90-94 access exactly
these). -/
structure Field where
  label : Option String
  name : Option String
  id : String
deriving Repr, DecidableEq

/-- Python `a or b` for an optional string against a string default: a
present truthy value wins, otherwise the default. -/
def pyOrStr (a : Option String) (b : String) : String :=
  match a with
  | some s => if truthy s then s else b
  | none => b

/-- app.py line 91: `(f.get("label") or f.get("name") or "").strip()`. -/
def fieldLabel (f : Field) : String := pyStrip (pyOrStr f.label (pyOrStr f.name ""))

/-- The response one field-listing endpoint gives (app.py lines 85-89): a
transport/HTTP exception (this also covers a body whose parse raises, since
line 95 catches everything), a 404 status, or a parsed body whose tolerant
container unpacking (line 89) produced this list of fields. -/
inductive FieldsResp where
  | exc : FieldsResp
  | notFound : FieldsResp
  | ok : List Field → FieldsResp
deriving Repr, DecidableEq

/-- app.py lines 90-94: scan the fields of one response for the first whose
label/name matches the lower-cased target. -/
def findMatch (target : String) : List Field → Option String
  | [] => none
  | f :: fs => if pyLower (fieldLabel f) = target then some f.id else findMatch target fs

/-- The discovery loop of `ensure_tz_field_id` (app.py lines 83-96): walk the
candidate endpoints, skipping 404s and exceptions, returning the first
matching field id; the second component counts the GET requests issued. -/
def ensureLoop (target : String) : List FieldsResp → Option String × Nat
  | [] => (none, 0)
  | r :: rs =>
    match r with
    | .exc => let p := ensureLoop target rs; (p.1, p.2 + 1)
    | .notFound => let p := ensureLoop target rs; (p.1, p.2 + 1)
    | .ok fields =>
      match findMatch target fields with
      | some fid => (some fid, 1)
      | none => let p := ensureLoop target rs; (p.1, p.2 + 1)

/-- The state of `_cache_field_ids` restricted to its only key: `none` when
the key `"tz"` is absent, `some v` when the key is present with value `v`
(itself optional, since the Python value may be `None`). -/
abbrev CacheTz : Type := Option (Option String)

/-- Result of one `ensure_tz_field_id` call: the returned value, the cache
entry afterwards, and how many GET requests the call issued. -/
structure EnsureResult where
  ret : Option String
  cache : CacheTz
  requests : Nat
deriving Repr, DecidableEq

/-- app.py `ensure_tz_field_id` (lines 75-98): return the cache entry when
the `"tz"` key is present; otherwise run discovery over the three endpoint
responses and cache the outcome (a found id, or `None` for not found). -/
def ensure_tz_field_id (cfg : Config) (cache : CacheTz) (resps : List FieldsResp) :
    EnsureResult :=
  match cache with
  | some v => ⟨v, some v, 0⟩
  | none =>
    let p := ensureLoop (pyLower (pyStrip cfg.tzFieldLabel)) resps
    match p.1 with
    | some fid => ⟨some fid, some (some fid), p.2⟩
    | none => ⟨none, some none, p.2⟩

/-- app.py line 31: `_cache_field_ids = {"tz": TZ_FIELD_ID_ENV}` — the cache
at module initialization always carries the `"tz"` key. -/
def initCache (cfg : Config) : CacheTz := some cfg.tzFieldIdEnv

/-- A geographic location as the geocoder parses it (app.py lines 110-111).
The numeric lat/lng values are never computed with, so they are modelled as
integers. -/
structure Loc where
  lat : Int
  lng : Int
deriving Repr, DecidableEq

/-- The geocoding response (app.py lines 102-111): a transport/HTTP error or
parse failure (everything line 112 catches), or a parsed body whose
`"results"` key holds this list of result locations. -/
inductive GeoResp where
  | exc : GeoResp
  | ok : List Loc → GeoResp
deriving Repr, DecidableEq

/-- app.py `geocode` (lines 100-113): `None` on an exception or when the
results list is falsy (empty/missing); otherwise the first result's
location. -/
def geocode (r : GeoResp) : Option Loc :=
  match r with
  | .exc => none
  | .ok [] => none
  | .ok (l :: _) => some l

/-- The parsed body of a time-zone API response (app.py lines 123-125). -/
structure TzBody where
  status : String
  timeZoneId : String
  timeZoneName : Option String
deriving Repr, DecidableEq

/-- The time-zone response: a transport/HTTP error or parse failure
(everything app.py line 126 catches), or a parsed body. -/
inductive TzResp where
  | exc : TzResp
  | ok : TzBody → TzResp
deriving Repr, DecidableEq

/-- app.py `tz_for` (lines 115-127): `None` on an exception or a non-"OK"
status; otherwise the pair of zone id and optional zone name. -/
def tz_for (r : TzResp) : Option (String × Option String) :=
  match r with
  | .exc => none
  | .ok b => if b.status ≠ "OK" then none else some (b.timeZoneId, b.timeZoneName)

/-- The network as the background job sees it: what the geocoder answers for
each address string, and what the time-zone API answers for each location. -/
structure World where
  geo : String → GeoResp
  tz : Loc → TzResp

/-- The candidate loop of the background job (app.py lines 179-186): try
each candidate in order, skipping falsy strings, candidates that fail to
geocode, and candidates whose coordinates fail the time-zone lookup; stop at
the first full success. -/
def tryCandidates (w : World) : List String → Option (String × Option String)
  | [] => none
  | a :: rest =>
    if truthy a = false then tryCandidates w rest
    else
      match geocode (w.geo a) with
      | none => tryCandidates w rest
      | some coords =>
        match tz_for (w.tz coords) with
        | none => tryCandidates w rest
        | some tz => some tz

/-- The resolution phase of the background job (app.py lines 175-194): the
candidate loop, then the state-table fallback when `tz_id` is still falsy,
then `None` (the raised-and-logged `HTTPException`) when nothing resolved. -/
def resolveTz (w : World) (candidates : List String) (st : String) :
    Option (String × Option String) :=
  let r := tryCandidates w candidates
  let tzId := (r.map Prod.fst).getD ""
  let tzName := (r.bind Prod.snd)
  if truthy tzId = false then
    match lookupStateTz st with
    | some t => some (t, none)
    | none => none
  else some (tzId, tzName)

/-- One entry of the `customFields` list that `update_contact` sends
(app.py lines 133-134). -/
structure CustomFieldEntry where
  id : String
  value : String
deriving Repr, DecidableEq

/-- The JSON body `update_contact` posts (app.py lines 131-135); an empty
`customFields` list stands for the key being absent (line 135 only adds the
key when the list is non-empty). -/
structure ContactPayload where
  id : String
  timeZone : String
  customFields : List CustomFieldEntry
deriving Repr, DecidableEq

/-- The response one contact POST gives (app.py lines 139-145): a transport
exception, or an HTTP status code. -/
inductive PostResp where
  | exc : PostResp
  | status : Nat → PostResp
deriving Repr, DecidableEq

/-- Whether a POST response counts as success in app.py line 140:
a status code strictly below 300. -/
def postSuccess (r : PostResp) : Bool :=
  match r with
  | .exc => false
  | .status c => c < 300

/-- app.py line 137: the ordered contact-endpoint variants. -/
def contactUrls : List String :=
  ["https://services.leadconnectorhq.com/contacts",
   "https://services.leadconnectorhq.com/contacts/",
   "https://services.leadconnectorhq.com/contacts/upsert",
   "https://services.leadconnectorhq.com/contacts/upsert/"]

/-- The POST loop of `update_contact` (app.py lines 137-145): try each URL in
order, returning the first whose response is a success status; `none` means
every variant failed (and line 146 raises). -/
def updateLoop (post : String → PostResp) : List String → Option String
  | [] => none
  | u :: us => if postSuccess (post u) then some u else updateLoop post us

/-- Result of one `update_contact` call: the body it posts, and the URL that
succeeded (`none` standing for the `HTTPException(502)` of line 146). -/
structure UpdateResult where
  payload : ContactPayload
  succeededAt : Option String
deriving Repr

/-- app.py `update_contact` (lines 129-146): resolve the custom field id,
build the payload carrying the contact id, the `timeZone` attribute, and the
custom-field entries gated on truthiness of the ids and the name, then walk
the URL variants until one succeeds. -/
def update_contact (cfg : Config) (cache : CacheTz) (fieldResps : List FieldsResp)
    (post : String → PostResp) (contactId tzId : String) (tzName : Option String) :
    UpdateResult :=
  let cfId := (ensure_tz_field_id cfg cache fieldResps).ret
  let cf : List CustomFieldEntry :=
    (if truthy (pyOrStr cfId "") then [⟨(pyOrStr cfId ""), tzId⟩] else [])
    ++ (if truthy (pyOrStr tzName "") && truthy (pyOrStr cfg.tzNameFieldId "") then
          [⟨pyOrStr cfg.tzNameFieldId "", pyOrStr tzName ""⟩] else [])
  ⟨⟨contactId, tzId, cf⟩, updateLoop post contactUrls⟩

/-- The synchronous HTTP response of the webhook route: `accepted` is the
dict with ok = true and queued = true (app.py line 202), `rejected e` the
dict with ok = false and error = e (line 159). -/
inductive WebhookResp where
  | accepted : WebhookResp
  | rejected : String → WebhookResp
deriving Repr, DecidableEq

/-- What `ghl_webhook` does synchronously (app.py lines 152-202): the
response it returns, whether it scheduled the background job (line 201), the
contact id it extracted, and the candidate list the job will use. -/
structure WebhookResult where
  resp : WebhookResp
  queued : Bool
  contactId : Option String
  candidates : List String
  extracted : Extracted
deriving Repr

/-- The empty extraction, for the early-return branch where lines 161-171
never run. -/
def emptyExtracted : Extracted := ⟨"", "", "", ""⟩

/-- app.py `ghl_webhook`, synchronous part (lines 152-202): reject with
"missing contact_id" when no contact id extracts; otherwise extract the
address fields, build the candidates, schedule the job and accept. -/
def ghl_webhook (body : Payload) : WebhookResult :=
  match get_first body ["contact_id", "id"] with
  | none => ⟨.rejected "missing contact_id", false, none, [], emptyExtracted⟩
  | some cid =>
    let e := extractFields body
    let cands := buildCandidates e.address e.city e.state e.zipCode
    ⟨.accepted, true, some cid, cands, e⟩

/-- The background job (app.py lines 173-199) as scheduled for an accepted
request: resolve a time zone from the candidates and the state fallback and,
when one resolved, invoke `update_contact` with it; `none` means the job
only logged (resolution failed, line 194's raise caught at line 198). -/
def runJob (w : World) (r : WebhookResult) (cfg : Config) (cache : CacheTz)
    (fieldResps : List FieldsResp) (post : String → PostResp) : Option UpdateResult :=
  match r.contactId with
  | none => none
  | some cid =>
    match resolveTz w r.candidates r.extracted.state with
    | none => none
    | some (tzId, tzName) => some (update_contact cfg cache fieldResps post cid tzId tzName)

/-- A network in which every geocoding and time-zone call fails with a
transport error. -/
def wFail : World := ⟨fun _ => GeoResp.exc, fun _ => TzResp.exc⟩

/-- The payload of the spec's Arizona fallback scenario. -/
def azPayload : Payload := ⟨[("id", "c2"), ("state", "az")], none⟩

/-- The empty payload. -/
def emptyPayload : Payload := ⟨[], none⟩

/-- One address candidate fails upstream: its geocode returns nothing, or
its coordinates fail the time-zone lookup. -/
def candidateFails (w : World) (a : String) : Bool :=
  match geocode (w.geo a) with
  | none => true
  | some l => (tz_for (w.tz l)).isNone

/-- A contact-POST network whose first endpoint variant answers 304 (a
redirect-class, non-error HTTP status) and every other variant answers 200. -/
def post304 : String → PostResp := fun u =>
  if u = "https://services.leadconnectorhq.com/contacts" then PostResp.status 304
  else PostResp.status 200

/-- The inner per-dict loop of `get_first` returns the first key whose value
is present and truthy. -/
theorem getFirstIn_eq_findSome (d : List (String × String)) (keys : List String) :
    getFirstIn d keys = keys.findSome? fun k => Option.filter truthy (lookup d k) := by
  induction keys with
  | nil => rfl
  | cons k ks ih =>
    simp only [getFirstIn, List.findSome?_cons]
    cases lookup d k with
    | none => simpa using ih
    | some v =>
      cases h : truthy v <;> simp [Option.filter, h, ih]

/-- The POST loop of `update_contact` returns the first URL whose response
is a success status. -/
theorem updateLoop_eq_find (post : String → PostResp) (us : List String) :
    updateLoop post us = us.find? fun u => postSuccess (post u) := by
  induction us with
  | nil => rfl
  | cons u us ih =>
    cases h : postSuccess (post u) <;> simp [updateLoop, List.find?_cons, h, ih]

/-- When every candidate fails upstream, the candidate loop resolves
nothing. -/
theorem tryCandidates_of_fails (w : World) (cands : List String)
    (h : ∀ a ∈ cands, candidateFails w a = true) : tryCandidates w cands = none := by
  induction cands with
  | nil => rfl
  | cons a rest ih =>
    have ha := h a (List.mem_cons_self a rest)
    have hrest := ih fun b hb => h b (List.mem_cons_of_mem a hb)
    simp only [tryCandidates]
    cases ht : truthy a with
    | false => simpa [ht] using hrest
    | true =>
      unfold candidateFails at ha
      cases hg : geocode (w.geo a) with
      | none => simp [ht, hg, hrest]
      | some l =>
        rw [hg] at ha
        have ha2 : (tz_for (w.tz l)).isNone = true := ha
        cases htz : tz_for (w.tz l) with
        | none => simp [ht, hg, htz, hrest]
        | some p => rw [htz] at ha2; simp at ha2

/-- C1 counterexample: the empty payload is rejected with the message
"missing contact_id", not "missing contact_id or address parts"; and a
payload with a contact id but no address-bearing field at all is accepted
and has background work scheduled, instead of being rejected. -/
theorem C1_counterexample :
    (ghl_webhook emptyPayload).resp = WebhookResp.rejected "missing contact_id"
    ∧ (ghl_webhook emptyPayload).resp ≠ WebhookResp.rejected "missing contact_id or address parts"
    ∧ (ghl_webhook emptyPayload).queued = false
    ∧ (ghl_webhook ⟨[("id", "c1")], none⟩).resp = WebhookResp.accepted
    ∧ (ghl_webhook ⟨[("id", "c1")], none⟩).queued = true := by decide

/-- C1 amended: the handler accepts (responding ok and queued, scheduling
the background job) exactly when a contact id extracts from the payload, and
otherwise responds with ok = false and error = "missing contact_id" without
scheduling background work; missing address-bearing fields never cause a
synchronous rejection. -/
theorem C1_response_contract (body : Payload) :
    ((ghl_webhook body).resp =
      if (get_first body ["contact_id", "id"]).isSome then WebhookResp.accepted
      else WebhookResp.rejected "missing contact_id")
    ∧ ((ghl_webhook body).queued = (get_first body ["contact_id", "id"]).isSome) := by
  cases h : get_first body ["contact_id", "id"] <;> simp [ghl_webhook, h]

/-- C2: with no fixed field id configured, `ensure_tz_field_id` run on the
module-initialized cache answers `none` immediately and issues zero network
requests, even against an endpoint whose very first response lists a field
labelled "Time Zone"; the discovery loop itself, had it run, would have
found that field's id with one request. -/
theorem C2_discovery_unreachable :
    ensure_tz_field_id ⟨"Time Zone", none, none⟩ (initCache ⟨"Time Zone", none, none⟩)
        [FieldsResp.ok [⟨some "Time Zone", none, "field123"⟩]]
      = ⟨none, some none, 0⟩
    ∧ ensureLoop "time zone" [FieldsResp.ok [⟨some "Time Zone", none, "field123"⟩]]
      = (some "field123", 1) := by decide

/-- C3: the candidate list is exactly the fully-qualified address candidate
(when the address and one of city/state are non-empty), then the zip
candidate, then the city-state candidate, then the state candidate; in
particular a non-empty zip always contributes its candidate, and when
address, city and state are all non-empty the fully-qualified candidate
comes first. -/
theorem C3_candidate_order (a c s z : String) :
    (buildCandidates a c s z =
      (if truthy a && (truthy c || truthy s) then [a ++ ", " ++ c ++ ", " ++ s ++ ", USA"] else [])
      ++ (if truthy z then [z ++ ", USA"] else [])
      ++ (if truthy c && truthy s then [c ++ ", " ++ s ++ ", USA"] else [])
      ++ (if truthy s then [s ++ ", USA"] else []))
    ∧ (truthy z = true → (z ++ ", USA") ∈ buildCandidates a c s z)
    ∧ (truthy a = true → truthy c = true → truthy s = true →
        ∃ rest, buildCandidates a c s z = (a ++ ", " ++ c ++ ", " ++ s ++ ", USA") :: rest) := by
  have he : buildCandidates a c s z =
      (if truthy a && (truthy c || truthy s) then [a ++ ", " ++ c ++ ", " ++ s ++ ", USA"] else [])
      ++ (if truthy z then [z ++ ", USA"] else [])
      ++ (if truthy c && truthy s then [c ++ ", " ++ s ++ ", USA"] else [])
      ++ (if truthy s then [s ++ ", USA"] else []) := by
    simp only [buildCandidates]
    cases truthy a <;> cases truthy c <;> cases truthy s <;> cases truthy z <;> simp
  refine ⟨he, ?_, ?_⟩
  · intro hz
    rw [he]
    simp [hz]
  · intro ha hc hs
    rw [he]
    simp only [ha, hc, hs, Bool.and_self, Bool.true_and, Bool.or_self, if_pos]
    exact ⟨_, rfl⟩

/-- C3 witness: for a concrete payload with address, city, state and zip all
present, the zip candidate is among the candidates, and the fully-qualified
candidate comes first. -/
theorem C3_candidate_order_witness :
    ("62701, USA" ∈ buildCandidates "123 Main St" "Springfield" "IL" "62701")
    ∧ (∃ rest, buildCandidates "123 Main St" "Springfield" "IL" "62701"
        = "123 Main St, Springfield, IL, USA" :: rest) := by
  have h := C3_candidate_order "123 Main St" "Springfield" "IL" "62701"
  exact ⟨h.2.1 (by decide), h.2.2 (by decide) (by decide) (by decide)⟩

/-- C4: when every address candidate of an accepted payload fails upstream
(no geocode, or no time zone for its coordinates), and the payload's
normalized state is a key of the state fallback table, the background job
resolves exactly the table's zone for that state with no display name. -/
theorem C4_state_fallback (w : World) (body : Payload) (v : String)
    (h : ∀ a ∈ (ghl_webhook body).candidates, candidateFails w a = true)
    (hs : lookupStateTz (ghl_webhook body).extracted.state = some v) :
    resolveTz w (ghl_webhook body).candidates (ghl_webhook body).extracted.state
      = some (v, none) := by
  have ht := tryCandidates_of_fails w _ h
  simp [resolveTz, ht, truthy, hs]

/-- C4 witness: for the payload with id "c2" and state "az", with every
upstream call failing, the job resolves America/Phoenix with no display
name. -/
theorem C4_state_fallback_witness :
    resolveTz wFail (ghl_webhook azPayload).candidates (ghl_webhook azPayload).extracted.state
      = some ("America/Phoenix", none) :=
  C4_state_fallback wFail azPayload "America/Phoenix" (fun _ _ => rfl) (by decide)

/-- C5 counterexample: 304 is a non-error (redirect-class) HTTP status, yet
when the first endpoint variant answers 304 the updater does not treat it as
success: it moves on and succeeds at the second variant. -/
theorem C5_counterexample :
    postSuccess (PostResp.status 304) = false
    ∧ post304 "https://services.leadconnectorhq.com/contacts" = PostResp.status 304
    ∧ updateLoop post304 contactUrls = some "https://services.leadconnectorhq.com/contacts/" := by
  decide

/-- C5 amended: `update_contact` always sends the contact id and the primary
`timeZone` attribute set to the resolved zone; when a custom field id was
resolved (non-empty) it additionally sends that field set to the same zone,
and when a display-name field is configured (non-empty) and a display name
is present it sends that field set to the name; it tries the endpoint
variants in order and succeeds at the first one answering a status below
300 (rather than any non-error status), trying no further variant; when
every variant fails the call is a fatal failure (the raised 502). -/
theorem C5_update_contract (cfg : Config) (cache : CacheTz) (fr : List FieldsResp)
    (post : String → PostResp) (cid tzId : String) (tzName : Option String) :
    (update_contact cfg cache fr post cid tzId tzName).payload.id = cid
    ∧ (update_contact cfg cache fr post cid tzId tzName).payload.timeZone = tzId
    ∧ (∀ fid, (ensure_tz_field_id cfg cache fr).ret = some fid → truthy fid = true →
        CustomFieldEntry.mk fid tzId
          ∈ (update_contact cfg cache fr post cid tzId tzName).payload.customFields)
    ∧ (∀ n nf, tzName = some n → truthy n = true →
        cfg.tzNameFieldId = some nf → truthy nf = true →
        CustomFieldEntry.mk nf n
          ∈ (update_contact cfg cache fr post cid tzId tzName).payload.customFields)
    ∧ (update_contact cfg cache fr post cid tzId tzName).succeededAt
        = contactUrls.find? (fun u => postSuccess (post u))
    ∧ ((update_contact cfg cache fr post cid tzId tzName).succeededAt = none
        ↔ ∀ u ∈ contactUrls, postSuccess (post u) = false) := by
  refine ⟨rfl, rfl, ?_, ?_, updateLoop_eq_find post contactUrls, ?_⟩
  · intro fid hf ht
    simp [update_contact, hf, pyOrStr, ht]
  · intro n nf hn htn hnf htnf
    simp only [update_contact, hn, hnf]
    simp [pyOrStr, htn, htnf, List.mem_append]
  · show updateLoop post contactUrls = none ↔ _
    rw [updateLoop_eq_find post contactUrls]
    simp [List.find?_eq_none]

/-- C5 witness: with a cached field id "cf1", a configured display-name
field "namefield", a resolved zone and name, and a network whose first
variant answers 200, the posted payload carries both custom-field entries,
the primary attribute, and the update succeeds at the first variant. -/
theorem C5_update_contract_witness :
    (update_contact ⟨"Time Zone", none, some "namefield"⟩ (some (some "cf1")) []
        (fun _ => PostResp.status 200) "c1" "America/Los_Angeles"
        (some "Pacific Daylight Time")).payload.timeZone = "America/Los_Angeles"
    ∧ CustomFieldEntry.mk "cf1" "America/Los_Angeles"
        ∈ (update_contact ⟨"Time Zone", none, some "namefield"⟩ (some (some "cf1")) []
            (fun _ => PostResp.status 200) "c1" "America/Los_Angeles"
            (some "Pacific Daylight Time")).payload.customFields
    ∧ CustomFieldEntry.mk "namefield" "Pacific Daylight Time"
        ∈ (update_contact ⟨"Time Zone", none, some "namefield"⟩ (some (some "cf1")) []
            (fun _ => PostResp.status 200) "c1" "America/Los_Angeles"
            (some "Pacific Daylight Time")).payload.customFields := by
  have h := C5_update_contract ⟨"Time Zone", none, some "namefield"⟩ (some (some "cf1")) []
    (fun _ => PostResp.status 200) "c1" "America/Los_Angeles" (some "Pacific Daylight Time")
  exact ⟨h.2.1,
    h.2.2.1 "cf1" rfl (by decide),
    h.2.2.2.1 "Pacific Daylight Time" "namefield" rfl (by decide) rfl (by decide)⟩

/-- C6: `ensure_tz_field_id` is idempotent: running it again on the cache a
first run left behind returns the first run's value, and the second run
issues zero network requests, whatever responses the network would have
given it. -/
theorem C6_idempotent (cfg : Config) (cache : CacheTz) (resps resps2 : List FieldsResp) :
    (ensure_tz_field_id cfg (ensure_tz_field_id cfg cache resps).cache resps2).ret
      = (ensure_tz_field_id cfg cache resps).ret
    ∧ (ensure_tz_field_id cfg (ensure_tz_field_id cfg cache resps).cache resps2).requests
      = 0 := by
  cases cache with
  | some v => exact ⟨rfl, rfl⟩
  | none =>
    have h : ∀ (r : EnsureResult), ensure_tz_field_id cfg none resps = r →
        (ensure_tz_field_id cfg r.cache resps2).ret = r.ret
        ∧ (ensure_tz_field_id cfg r.cache resps2).requests = 0 := by
      intro r hr
      rcases hl : ensureLoop (pyLower (pyStrip cfg.tzFieldLabel)) resps with ⟨o, n⟩
      cases o with
      | some fid =>
        rw [ensure_tz_field_id, hl] at hr
        rw [← hr]
        exact ⟨rfl, rfl⟩
      | none =>
        rw [ensure_tz_field_id, hl] at hr
        rw [← hr]
        exact ⟨rfl, rfl⟩
    exact h _ rfl

/-- C7: field extraction checks every listed key at top level first, taking
the first present truthy value, and only when none matches falls back to the
same key scan inside the nested contact dict (when that is present and a
dict); in this model a JSON value is its string form, so the returned value
is the string form of the first non-empty match. -/
theorem C7_get_first_priority (p : Payload) (keys : List String) :
    get_first p keys =
      Option.orElse (keys.findSome? fun k => Option.filter truthy (lookup p.top k))
        (fun _ =>
          match p.contact with
          | some c => keys.findSome? fun k => Option.filter truthy (lookup c k)
          | none => none) := by
  simp only [get_first, ← getFirstIn_eq_findSome]
  cases getFirstIn p.top keys <;> cases p.contact <;> simp [Option.orElse]

/-- C8: the geocoder fails (returns a failure value, never raising) exactly
on a transport/HTTP exception or an empty results list; the time-zone
resolver fails exactly on a transport exception or a non-"OK" status; and a
failing candidate is non-fatal: the candidate loop on a failing head
continues exactly as it would on the remaining candidates. -/
theorem C8_failure_nonfatal :
    (∀ r : GeoResp, geocode r = none ↔ (r = GeoResp.exc ∨ r = GeoResp.ok []))
    ∧ (∀ r : TzResp, tz_for r = none ↔ (r = TzResp.exc ∨ ∃ b, r = TzResp.ok b ∧ b.status ≠ "OK"))
    ∧ (∀ (w : World) (a : String) (rest : List String), candidateFails w a = true →
        tryCandidates w (a :: rest) = tryCandidates w rest) := by
  refine ⟨?_, ?_, ?_⟩
  · intro r
    cases r with
    | exc => simp [geocode]
    | ok ls => cases ls <;> simp [geocode]
  · intro r
    cases r with
    | exc => simp [tz_for]
    | ok b =>
      by_cases h : b.status = "OK" <;> simp [tz_for, h]
  · intro w a rest h
    simp only [tryCandidates]
    cases ht : truthy a with
    | false => simp [ht]
    | true =>
      unfold candidateFails at h
      cases hg : geocode (w.geo a) with
      | none => simp [ht, hg]
      | some l =>
        rw [hg] at h
        have h2 : (tz_for (w.tz l)).isNone = true := h
        cases htz : tz_for (w.tz l) with
        | none => simp [ht, hg, htz]
        | some p => rw [htz] at h2; simp at h2

/-- C8 witness: with a network on which every upstream call fails, the loop
on a concrete failing candidate equals the loop on the empty tail. -/
theorem C8_failure_nonfatal_witness :
    tryCandidates wFail ["94105, USA"] = tryCandidates wFail [] :=
  C8_failure_nonfatal.2.2 wFail "94105, USA" [] rfl

/-- C9: the field-id cache carries the key "tz" from module initialization
onward, so every `ensure_tz_field_id` call returns the cached value (the
configured fixed id, possibly None) with zero network requests and leaves
the cache unchanged, whether or not a fixed id was configured. -/
theorem C9_cache_always_seeded (cfg : Config) (resps : List FieldsResp) :
    ensure_tz_field_id cfg (initCache cfg) resps
      = ⟨cfg.tzFieldIdEnv, initCache cfg, 0⟩ := rfl

/-- C10: when city and state both extract empty, the candidate list is the
zip-only list, independent of the address; with no zip either it is empty,
and the concrete payload carrying only a contact id and an address yields an
empty candidate list. -/
theorem C10_address_unused_without_city_state (a z : String) :
    buildCandidates a "" "" z = (if truthy z then [z ++ ", USA"] else [])
    ∧ buildCandidates a "" "" "" = []
    ∧ (ghl_webhook ⟨[("contact_id", "c9"), ("address", "123 Main St")], none⟩).candidates
        = [] := by
  refine ⟨?_, ?_, by decide⟩
  · simp [buildCandidates, truthy]
  · simp [buildCandidates, truthy]

end GhlTz
